import Mathlib

/-!
Verification of the process-orchestration core of the `ai-assistant` WhatsApp
bot (src/claude.js, src/index.js) against its natural-language specification.

The JavaScript is shallowly embedded: module-level mutable maps become
association lists threaded through functions, `Date.now()` timestamps become
explicit `Int` arguments, the shared JSON state file becomes an
`Option SharedState` value (parse/serialize modelled as the identity, missing
file as `none`), and asynchronous callback interleavings become explicit event
traces folded over a step function.  JavaScript truthiness of strings (empty
string is falsy) is modelled by `jsTruthy`.
-/

namespace AiAssistant

/-- JS object field access (`obj[k]` / `map.get(k)`) on an association list. -/
def jsGet {α : Type} (m : List (String × α)) (k : String) : Option α :=
  match m with
  | [] => none
  | e :: rest => if e.1 = k then some e.2 else jsGet rest k

/-- Deleting a key (`delete obj[k]` / `map.delete(k)`). -/
def jsDelete {α : Type} (m : List (String × α)) (k : String) : List (String × α) :=
  m.filter (fun e => e.1 != k)

/-- Setting a key (`obj[k] = v` / `map.set(k, v)`): the binding for `k` is
replaced; represented as a cons after removing any old binding. -/
def jsSet {α : Type} (m : List (String × α)) (k : String) (v : α) : List (String × α) :=
  (k, v) :: jsDelete m k

/-- JS `x || null` applied to an optional string: the empty string is falsy,
so it coalesces to null (`none`). -/
def jsTruthy : Option String → Option String
  | some s => if s = "" then none else some s
  | none => none

theorem jsGet_jsSet_self {α : Type} (m : List (String × α)) (k : String) (v : α) :
    jsGet (jsSet m k v) k = some v := by
  simp [jsSet, jsGet]

theorem jsGet_jsDelete_self {α : Type} (m : List (String × α)) (k : String) :
    jsGet (jsDelete m k) k = none := by
  induction m with
  | nil => rfl
  | cons e rest ih =>
    by_cases h : e.1 = k
    · simpa [jsDelete, List.filter_cons, h] using ih
    · simpa [jsDelete, List.filter_cons, h, jsGet] using ih

theorem jsGet_jsSet_ne {α : Type} (m : List (String × α)) (k k2 : String) (v : α)
    (h : k ≠ k2) : jsGet (jsSet m k v) k2 = jsGet (jsDelete m k) k2 := by
  simp [jsSet, jsGet, h]

/-- JS `s.endsWith(post)`, computed on the underlying character lists. -/
def strEndsWith (s post : String) : Bool :=
  post.data.isSuffixOf s.data

/-- `claude.js` line 59: a chat is a group chat when the id is truthy and ends
in the group suffix (`chatId && chatId.endsWith('@g.us')`). -/
def isGroupChat (chatId : String) : Bool :=
  chatId != "" && strEndsWith chatId "@g.us"

/-! ### Task history (claude.js lines 557-571) -/

/-- Status recorded in a task-history entry. -/
inductive TStatus where
  | completed
  | errored
  | stopped
deriving DecidableEq, Repr

/-- One completed-task record, as built in the close handler of `runClaude`. -/
structure TaskRecord where
  prompt : String
  startTime : Int
  endTime : Int
  durationSecs : Int
  tokens : Option (Nat × Nat)
  status : TStatus
deriving DecidableEq, Repr

/-- `addTaskHistory` acting on one chat's history list:
`history.push(entry); if (history.length > 5) history.shift();`. -/
def addTaskHistoryList (history : List TaskRecord) (entry : TaskRecord) : List TaskRecord :=
  let h := history ++ [entry]
  if h.length > 5 then h.tail else h

/-! ### Global concurrency limiter (claude.js lines 34-57)

`runningClaudeCount` is a JS number, so it is modelled as `Int` (a double
release can drive it below zero).  The wait queue holds waiter identifiers in
FIFO order. -/

def MAX_CONCURRENT_CLAUDE : Int := 20

structure Limiter where
  runningClaudeCount : Int
  claudeWaitQueue : List Nat
deriving DecidableEq, Repr

/-- `acquireClaudeSlot`: below the cap the count is bumped and the caller
proceeds (`true`); otherwise the caller is appended to the wait queue
(`false` = suspended). -/
def acquireClaudeSlot (wid : Nat) (l : Limiter) : Bool × Limiter :=
  if l.runningClaudeCount < MAX_CONCURRENT_CLAUDE then
    (true, { l with runningClaudeCount := l.runningClaudeCount + 1 })
  else
    (false, { l with claudeWaitQueue := l.claudeWaitQueue ++ [wid] })

/-- `releaseClaudeSlot`: with a non-empty queue the head waiter is resolved and
the count is unchanged (slot transferred); otherwise the count is decremented. -/
def releaseClaudeSlot (l : Limiter) : Option Nat × Limiter :=
  match l.claudeWaitQueue with
  | next :: rest => (some next, { l with claudeWaitQueue := rest })
  | [] => (none, { l with runningClaudeCount := l.runningClaudeCount - 1 })

/-- Callback events that can fire for a single spawned invocation inside
`runClaude` (claude.js lines 369-381 and 379-464): the timeout timer firing,
the process close event, and the process error event. -/
inductive InvEv where
  | timerFires
  | closeEvent
  | errorEvent
deriving DecidableEq, Repr

/-- Effect of one invocation callback on the limiter, read off the source:
the timer callback (armed only when `config.commandTimeoutMs > 0`) calls
`releaseClaudeSlot()` after killing the process; the close handler calls
`releaseClaudeSlot()` unconditionally (its `clearTimeout` only cancels a timer
that has not fired yet); the error handler also calls `releaseClaudeSlot()`. -/
def superviseStep (timeoutConfigured : Bool) (l : Limiter) (e : InvEv) : Limiter :=
  match e with
  | .timerFires => if timeoutConfigured then (releaseClaudeSlot l).2 else l
  | .closeEvent => (releaseClaudeSlot l).2
  | .errorEvent => (releaseClaudeSlot l).2

/-- Fold the invocation callbacks over the limiter state. -/
def superviseTrace (timeoutConfigured : Bool) (l : Limiter) (evs : List InvEv) : Limiter :=
  evs.foldl (superviseStep timeoutConfigured) l

/-- Number of `releaseClaudeSlot()` calls made by the handlers on a given
callback trace. -/
def releasesIn (timeoutConfigured : Bool) (evs : List InvEv) : Nat :=
  evs.foldl
    (fun n e =>
      match e with
      | InvEv.timerFires => if timeoutConfigured then n + 1 else n
      | InvEv.closeEvent => n + 1
      | InvEv.errorEvent => n + 1)
    0

/-! ### Shared state document (claude.js lines 110-136)

The shared JSON file is modelled as `Option SharedState` (`none` = file
missing); `JSON.parse`/`JSON.stringify` round-trip the document, so
serialization is the identity.  Fields that the initial document lacks
(`chatModels`, `locks`, `claimedMessages`, `tokenCounters` are created on
demand by the individual operations) are `Option`-valued, mirroring JS
`undefined`. -/

structure ClaimEntry where
  instanceId : String
  timestamp : Int
deriving DecidableEq, Repr

structure LockEntry where
  timestamp : Int
  botName : String
deriving DecidableEq, Repr

structure TokenCounter where
  input : Nat
  output : Nat
  tasks : Nat
deriving DecidableEq, Repr

structure SharedState where
  sessions : List (String × String)
  projectDirs : List (String × String)
  chatModels : Option (List (String × String))
  locks : Option (List (String × LockEntry))
  claimedMessages : Option (List (String × ClaimEntry))
  tokenCounters : Option (List (String × TokenCounter))
deriving DecidableEq, Repr

/-- `loadSharedState`: missing (or unreadable) file yields the default
document `{ sessions: {}, projectDirs: {} }`. -/
def loadSharedState (file : Option SharedState) : SharedState :=
  file.getD ⟨[], [], none, none, none, none⟩

/-- `saveSharedState`: write the whole document back. -/
def saveSharedState (st : SharedState) : Option SharedState :=
  some st

/-- `updateSharedState`: locked load, mutate, save. -/
def updateSharedState (file : Option SharedState) (fn : SharedState → SharedState) :
    Option SharedState :=
  saveSharedState (fn (loadSharedState file))

/-! ### Message dedup cache (claude.js lines 619-635) -/

/-- The one-hour retention used by `claimGroupMessage`. -/
def CLAIM_RETENTION_MS : Int := 3600000

/-- The cleanup loop: delete every claim with `now - claim.timestamp > 3600000`. -/
def purgeClaims (now : Int) (tbl : List (String × ClaimEntry)) :
    List (String × ClaimEntry) :=
  tbl.filter (fun e => decide (now - e.2.timestamp ≤ CLAIM_RETENTION_MS))

/-- `claimGroupMessage(msgId)`: under the file lock, load the document, purge
old claims, then return `false` if the id is still present (without saving),
or record `{ instanceId, timestamp }`, save, and return `true`. -/
def claimGroupMessage (instanceId : String) (now : Int) (msgId : String)
    (file : Option SharedState) : Bool × Option SharedState :=
  let state := loadSharedState file
  let tbl := state.claimedMessages.getD []
  let tbl1 := purgeClaims now tbl
  if (jsGet tbl1 msgId).isSome then
    (false, file)
  else
    (true, saveSharedState { state with claimedMessages := some (jsSet tbl1 msgId ⟨instanceId, now⟩) })

/-- A sequence of `claimGroupMessage` calls for the same message id at the
given times, threading the shared file through. -/
def claimSeq (instanceId msgId : String) (file : Option SharedState) :
    List Int → List Bool
  | [] => []
  | t :: ts =>
    let r := claimGroupMessage instanceId t msgId file
    r.1 :: claimSeq instanceId msgId r.2 ts

/-! ### Distributed group lock (claude.js lines 477-499) -/

def GROUP_LOCK_TTL_MS : Int := 10 * 60 * 1000

/-- `acquireGroupLock(chatId)`: under the file lock, if a lock entry exists
whose age is strictly below the TTL, fail without saving; otherwise write a
fresh `{ timestamp: now, botName }` entry and succeed. -/
def acquireGroupLock (botName : String) (now : Int) (chatId : String)
    (file : Option SharedState) : Bool × Option SharedState :=
  let state := loadSharedState file
  let locks := state.locks.getD []
  match jsGet locks chatId with
  | some lock =>
    if now - lock.timestamp < GROUP_LOCK_TTL_MS then
      (false, file)
    else
      (true, saveSharedState { state with locks := some (jsSet locks chatId ⟨now, botName⟩) })
  | none =>
    (true, saveSharedState { state with locks := some (jsSet locks chatId ⟨now, botName⟩) })

/-- `releaseGroupLock(chatId)`: read-modify-write that deletes the entry
unconditionally (no-op mutation when the locks table does not exist yet). -/
def releaseGroupLock (chatId : String) (file : Option SharedState) :
    Option SharedState :=
  updateSharedState file (fun state =>
    match state.locks with
    | none => state
    | some locks => { state with locks := some (jsDelete locks chatId) })

/-! ### File lock for the shared state (claude.js lines 64-108)

Closed-world model of `acquireFileLock`: the marker file is `Option Int`
(its mtime); `t` is the current clock.  Each loop iteration tries exclusive
creation; on `EEXIST` a stale marker (age strictly above `LOCK_STALE_MS`) is
unlinked and the loop continues immediately, while a fresh marker causes a
spin wait whose duration is taken from the schedule `ws` (the code draws
`50 + Math.random() * 100` ms).  The loop runs `LOCK_MAX_RETRIES` times. -/

def LOCK_STALE_MS : Int := 5000

def LOCK_MAX_RETRIES : Nat := 20

/-- The randomized spin-wait duration `50 + Math.random() * 100` for a random
draw `r` in `[0, 1)`. -/
def waitMsOf (r : ℚ) : ℚ := 50 + r * 100

/-- The retry loop of `acquireFileLock`, with explicit fuel (the retry bound),
marker state, clock, and wait schedule.  Returns (acquired?, marker state). -/
def acquireFileLockGo : Nat → Option Int → Int → List Int → Bool × Option Int
  | 0, marker, _, _ => (false, marker)
  | _ + 1, none, t, _ => (true, some t)
  | fuel + 1, some m, t, ws =>
    if t - m > LOCK_STALE_MS then
      acquireFileLockGo fuel none t ws
    else
      match ws with
      | [] => acquireFileLockGo fuel (some m) t []
      | w :: ws2 => acquireFileLockGo fuel (some m) (t + w) ws2

/-- `acquireFileLock` with the source's retry bound of 20. -/
def acquireFileLock (marker : Option Int) (t : Int) (ws : List Int) : Bool × Option Int :=
  acquireFileLockGo LOCK_MAX_RETRIES marker t ws

/-- `releaseFileLock`: unlink the marker inside a try/catch, so it is a no-op
when the marker is already gone. -/
def releaseFileLock (_marker : Option Int) : Option Int := none

/-- `withSharedStateLock(fn)`: acquire (result ignored), run `fn`, release in
a `finally`.  The operation's result is returned whether or not the lock was
obtained. -/
def withSharedStateLock {α : Type} (marker : Option Int) (t : Int) (ws : List Int)
    (fn : α) : α × Option Int :=
  let acq := acquireFileLock marker t ws
  (fn, releaseFileLock acq.2)

/-! ### Module-level state of claude.js and stopClaude (lines 17-29, 525-542)

`signals` is an effect log of kill signals sent, and `stoppedProcs` records
processes whose `_stoppedByUser` flag was raised. -/

structure ProcEntry where
  procId : Nat
  startTime : Int
  prompt : String
deriving DecidableEq, Repr

structure ClaudeState where
  sessions : List (String × String)
  projectDirs : List (String × String)
  chatModels : List (String × String)
  tokenCounters : List (String × TokenCounter)
  activeProcesses : List (String × ProcEntry)
  taskHistoryMap : List (String × List TaskRecord)
  sharedFile : Option SharedState
  signals : List (Nat × String)
  stoppedProcs : List Nat
deriving DecidableEq, Repr

/-- The state right after module load with empty persisted state. -/
def claudeInit : ClaudeState :=
  ⟨[], [], [], [], [], [], none, [], []⟩

/-- `stopClaude(chatId)`: no active process means return `false` with no other
effect; otherwise mark the process user-stopped, send SIGTERM (a delayed
SIGKILL escalation is scheduled), drop the active entry, and return `true`. -/
def stopClaude (st : ClaudeState) (chatId : String) : Bool × ClaudeState :=
  match jsGet st.activeProcesses chatId with
  | none => (false, st)
  | some entry =>
    (true,
      { st with
        stoppedProcs := st.stoppedProcs ++ [entry.procId]
        signals := st.signals ++ [(entry.procId, "SIGTERM")]
        activeProcesses := jsDelete st.activeProcesses chatId })

/-! ### Conversation state setters/getters (claude.js lines 217-270)

`fsExists` abstracts `fs.existsSync`; Node returns `false` for the empty
path, so callers of the round-trip theorem carry `dir` nonempty alongside
existence.  Local writes also persist a snapshot via `saveState()`, which
never affects subsequent reads and is therefore not modelled. -/

/-- `setProjectDir(chatId, dir)`: throws when the directory does not exist;
group chats write through the shared document, DM chats to the local map. -/
def setProjectDir (fsExists : String → Bool) (st : ClaudeState) (chatId dir : String) :
    Except String ClaudeState :=
  if !fsExists dir then
    Except.error ("Directory does not exist: " ++ dir)
  else if isGroupChat chatId then
    let file2 := updateSharedState st.sharedFile
      (fun s => { s with projectDirs := jsSet s.projectDirs chatId dir })
    Except.ok { st with sharedFile := file2 }
  else
    Except.ok { st with projectDirs := jsSet st.projectDirs chatId dir }

/-- `getProjectDir(chatId)`: shared or local read, then `|| null`. -/
def getProjectDir (st : ClaudeState) (chatId : String) : Option String :=
  if isGroupChat chatId then
    jsTruthy (jsGet (loadSharedState st.sharedFile).projectDirs chatId)
  else
    jsTruthy (jsGet st.projectDirs chatId)

/-- `setChatModel(chatId, model)`: group chats create the `chatModels` table
on demand in the shared document, DM chats write the local map. -/
def setChatModel (st : ClaudeState) (chatId model : String) : ClaudeState :=
  if isGroupChat chatId then
    let file2 := updateSharedState st.sharedFile
      (fun s => { s with chatModels := some (jsSet (s.chatModels.getD []) chatId model) })
    { st with sharedFile := file2 }
  else
    { st with chatModels := jsSet st.chatModels chatId model }

/-- `getChatModel(chatId)`: `(s.chatModels && s.chatModels[chatId]) || null`
for groups, `map.get(chatId) || null` for DMs. -/
def getChatModel (st : ClaudeState) (chatId : String) : Option String :=
  if isGroupChat chatId then
    jsTruthy ((loadSharedState st.sharedFile).chatModels.bind (fun m => jsGet m chatId))
  else
    jsTruthy (jsGet st.chatModels chatId)

/-! ### Supervisor retry logic (claude.js lines 303-466)

The executor subprocess is abstracted as a behaviour `exec` mapping the
session token passed on the command line (`--resume sessionId`, `none` = fresh
session) to its observable outcome.  The session store is the per-chat session
table (the local `Map` for DMs; group chats run the same logic against the
shared document's `sessions` table).  `runClaude` resolves the session, runs
the executor, and in its close handler retries once with a cleared session
when `code !== 0 && hasSession && !_isRetry`. -/

structure ExecRes where
  exitCode : Option Int
  stderrText : String
  stoppedByUser : Bool
  sessionIssued : Option String
deriving DecidableEq, Repr

inductive RunOutcome where
  | completed
  | stopped
  | failedExit (detail : String)
  | retryScheduled
deriving DecidableEq, Repr

/-- One pass of `runClaude` up to its close handler: resolve the session token
(`sessions.get(chatId) || null`), run the executor, then follow the close
handler's branches in source order (user-stop check, stale-session retry
guard, generic nonzero-exit error, success with session persistence).
Returns the session table after the pass, the outcome, and the token passed
to the executor. -/
def runClaudeOnce (exec : Option String → ExecRes) (sessions : List (String × String))
    (chatId : String) (isRetry : Bool) :
    List (String × String) × RunOutcome × Option String :=
  let sessionId := jsTruthy (jsGet sessions chatId)
  let hasSession := sessionId.isSome
  let r := exec sessionId
  if r.stoppedByUser then
    (sessions, RunOutcome.stopped, sessionId)
  else if r.exitCode ≠ some 0 ∧ hasSession ∧ ¬isRetry then
    (jsDelete sessions chatId, RunOutcome.retryScheduled, sessionId)
  else if r.exitCode ≠ some 0 then
    (sessions, RunOutcome.failedExit r.stderrText, sessionId)
  else
    match jsTruthy r.sessionIssued with
    | some s => (jsSet sessions chatId s, RunOutcome.completed, sessionId)
    | none => (sessions, RunOutcome.completed, sessionId)

structure RunResult where
  sessions : List (String × String)
  outcome : RunOutcome
  tokensPassed : List (Option String)
deriving DecidableEq, Repr

/-- `runClaude(prompt, chatId)`: first pass with `_isRetry = false`; when the
close handler schedules the stale-session retry (after `clearSession`), the
whole invocation is re-run with `_isRetry = true`.  `tokensPassed` records the
`--resume` token of each executor invocation actually spawned. -/
def runClaude (exec : Option String → ExecRes) (sessions : List (String × String))
    (chatId : String) : RunResult :=
  match runClaudeOnce exec sessions chatId false with
  | (s1, RunOutcome.retryScheduled, tok1) =>
    let r2 := runClaudeOnce exec s1 chatId true
    ⟨r2.1, r2.2.1, [tok1, r2.2.2]⟩
  | (s1, o, tok1) => ⟨s1, o, [tok1]⟩

/-- Whether `pat` occurs as a contiguous run inside the character list. -/
def occursWithin (pat : List Char) : List Char → Bool
  | [] => pat.isEmpty
  | c :: rest => pat.isPrefixOf (c :: rest) || occursWithin pat rest

/-- Modelled from the spec: the failure reason "resume with a session token
failed", observable as error text mentioning a resume failure (spec §8:
"error text matching resume failed").  Used only to compare the spec's retry
trigger with the implemented one. -/
def mentionsResume (s : String) : Bool :=
  occursWithin "resume".data s.data

/-! ### Output handling of the close handler (claude.js lines 421-446)

The executor's stdout is classified by shape: exactly one structured record,
diagnostic lines followed by a trailing record, or no record at all.
`JSON.parse(stdout)` succeeds exactly when the whole output is the record, so
it is modelled as succeeding only on the first shape. -/

structure ResultRecord where
  result : Option String
  session_id : Option String
  usage : Option (Nat × Nat)
deriving DecidableEq, Repr

inductive ExecStdout where
  | onlyRecord (r : ResultRecord)
  | diagThenRecord (d : String) (ds : List String) (r : ResultRecord)
  | noRecord (raw : String)
deriving DecidableEq, Repr

/-- `JSON.parse(stdout)` on the whole combined output: a well-formed document
only when the output is nothing but the record (any preceding diagnostic line
makes it throw). -/
def jsonParseWhole : ExecStdout → Option ResultRecord
  | ExecStdout.onlyRecord r => some r
  | ExecStdout.diagThenRecord _ _ _ => none
  | ExecStdout.noRecord _ => none

inductive UsedResult where
  | fromRecord (text : String)
  | rawStdout
deriving DecidableEq, Repr

/-- The success path of the close handler: parse stdout, persist
`json.session_id` if truthy, read `json.usage`, and use `json.result ||
stdout` as the reply; on parse failure fall back to the raw output with no
session or usage. -/
def runClaudeOutputHandling (s : ExecStdout) :
    UsedResult × Option String × Option (Nat × Nat) :=
  match jsonParseWhole s with
  | some json =>
    (match jsTruthy json.result with
     | some text => UsedResult.fromRecord text
     | none => UsedResult.rawStdout,
     jsTruthy json.session_id,
     json.usage)
  | none => (UsedResult.rawStdout, none, none)

/-- Modelled from the spec (and mirrored by tests/unit/json-extraction.test.js):
extract the last well-formed structured record from the tail of the output,
tolerating any diagnostic lines before it. -/
def specExtractLastRecord : ExecStdout → Option ResultRecord
  | ExecStdout.onlyRecord r => some r
  | ExecStdout.diagThenRecord _ _ r => some r
  | ExecStdout.noRecord _ => none

/-! ### Per-conversation task queue (index.js lines 308-309, 396-460, 610-636)

Single-conversation model.  `processing` is membership of the chat in the
`processing` set, `queue` is its `messageQueue` entry, `active` the
`activeProcesses` entry in claude.js, `inflight` the spawned executor
processes that have not yet emitted their close event, and `stopped` the
processes killed via `stopClaude`.  Events are the scheduler-level callbacks:
a prompt arriving, a process close event (which runs the `finally` of
`handlePrompt` and then `processQueue`), and the `/stop` command handler. -/

structure ChatQueueState where
  processing : Bool
  queue : List Nat
  active : Option Nat
  inflight : List Nat
  stopped : List Nat
deriving DecidableEq, Repr

/-- Start a task: `processing.add(chatId)` happened at `handlePrompt` entry;
`runClaude` records the active process and spawns the executor. -/
def startTask (p : Nat) (s : ChatQueueState) : ChatQueueState :=
  { s with processing := true, active := some p, inflight := s.inflight ++ [p] }

/-- `processQueue(chatId)`: shift the queue head and hand it to
`handlePrompt`, which re-checks the `processing` set (re-queueing at the back
when busy) or starts the task. -/
def processQueue (s : ChatQueueState) : ChatQueueState :=
  match s.queue with
  | [] => s
  | h :: t =>
    let s1 := { s with queue := t }
    if s1.processing then { s1 with queue := s1.queue ++ [h] }
    else startTask h s1

inductive QEv where
  | arrive (p : Nat)
  | closeEv (p : Nat)
  | stopCmd
deriving DecidableEq, Repr

/-- One scheduler event:
* `arrive p` — `handlePrompt` entry: queue when `processing` holds the chat,
  else mark processing and start;
* `closeEv p` — process `p` exits: the close handler drops the chat's
  `activeProcesses` entry, `runClaude` settles, and the `finally` of
  `handlePrompt` removes the chat from `processing` and calls `processQueue`;
* `stopCmd` — the `/stop` text handler with a non-empty queue: when a process
  is active it is stopped (`_stoppedByUser`, SIGTERM, entry dropped), the chat
  is removed from `processing`, and `processQueue` starts the next task. -/
def chatQueueStep (s : ChatQueueState) : QEv → ChatQueueState
  | QEv.arrive p =>
    if s.processing then { s with queue := s.queue ++ [p] }
    else startTask p s
  | QEv.closeEv p =>
    if s.inflight.contains p then
      let s1 := { s with inflight := s.inflight.erase p, active := none }
      processQueue { s1 with processing := false }
    else s
  | QEv.stopCmd =>
    match s.active with
    | some p =>
      let s1 := { s with stopped := s.stopped ++ [p], active := none, processing := false }
      processQueue s1
    | none => s

def chatQueueRun (s : ChatQueueState) (evs : List QEv) : ChatQueueState :=
  evs.foldl chatQueueStep s

def chatQueueInit : ChatQueueState := ⟨false, [], none, [], []⟩

/-! ## Claim theorems -/

/-- Claim C1: the spec demands that each acquired slot is released exactly
once per invocation, including invocations that time out, keeping the
concurrency count exact.  In the code, a timed-out invocation's timer
callback calls `releaseClaudeSlot()` and the subsequent process close event
calls `releaseClaudeSlot()` again (the close handler's release is
unconditional), so an invocation that acquired one slot performs two
releases, and a limiter holding a single running invocation ends with the
corrupted count `-1` instead of `0`. -/
theorem C1_timeout_double_release :
    releasesIn true [InvEv.timerFires, InvEv.closeEvent] = 2 ∧
    superviseTrace true (acquireClaudeSlot 0 ⟨0, []⟩).2 [InvEv.timerFires, InvEv.closeEvent] =
      ⟨-1, []⟩ := by
  exact ⟨rfl, rfl⟩

/-- Claim C3: the spec says the supervisor extracts the trailing structured
record even when diagnostic lines precede it.  The code instead runs
`JSON.parse` on the entire stdout: with a single diagnostic line before a
perfectly well-formed record it falls back to the raw output and drops the
record's result text, session id and usage, while the extraction the spec
(and the repo's own json-extraction test) describes recovers the record.
With no diagnostics the code does use the record. -/
theorem C3_diagnostic_prefix_drops_record :
    runClaudeOutputHandling
        (ExecStdout.diagThenRecord "Claude configuration file not found at: /home/claude/.claude.json"
          [] ⟨some "Hello! How can I help?", some "sess-456", some (100, 20)⟩) =
      (UsedResult.rawStdout, none, none) ∧
    specExtractLastRecord
        (ExecStdout.diagThenRecord "Claude configuration file not found at: /home/claude/.claude.json"
          [] ⟨some "Hello! How can I help?", some "sess-456", some (100, 20)⟩) =
      some ⟨some "Hello! How can I help?", some "sess-456", some (100, 20)⟩ ∧
    runClaudeOutputHandling
        (ExecStdout.onlyRecord ⟨some "Hello! How can I help?", some "sess-456", some (100, 20)⟩) =
      (UsedResult.fromRecord "Hello! How can I help?", some "sess-456", some (100, 20)) := by
  refine ⟨rfl, rfl, ?_⟩
  simp [runClaudeOutputHandling, jsonParseWhole, jsTruthy]

/-- Claim C4: the spec's per-conversation bound of at most one in-flight
executor invocation is violated around a user-initiated stop.  With task 1
running and tasks 2 and 3 queued, the `/stop` handler stops task 1 and starts
task 2 via `processQueue`; when task 1's close event later runs, the
`finally` of its `handlePrompt` calls `processQueue` again and starts task 3
while task 2 is still in flight — two concurrently in-flight, un-stopped
invocations for the same conversation. -/
theorem C4_stop_double_dequeue :
    chatQueueRun chatQueueInit [QEv.arrive 1, QEv.arrive 2, QEv.arrive 3, QEv.stopCmd, QEv.closeEv 1] =
      ⟨true, [], some 3, [2, 3], [1]⟩ ∧
    ((chatQueueRun chatQueueInit
        [QEv.arrive 1, QEv.arrive 2, QEv.arrive 3, QEv.stopCmd, QEv.closeEv 1]).inflight.filter
      (fun p => !(p ∈ [1]))).length = 2 := by
  exact ⟨rfl, rfl⟩

/-- Claim C7: the task history is a bounded ring of size 5 — appending keeps
the length at most 5, below capacity it preserves insertion order by plain
append, and appending to a full history evicts exactly the oldest record. -/
theorem C7_history_ring (h : List TaskRecord) (e : TaskRecord) :
    (h.length ≤ 5 → (addTaskHistoryList h e).length ≤ 5) ∧
    (h.length < 5 → addTaskHistoryList h e = h ++ [e]) ∧
    (h.length = 5 → addTaskHistoryList h e = h.tail ++ [e]) := by
  refine ⟨?_, ?_, ?_⟩
  · intro hle
    by_cases hgt : h.length + 1 > 5
    · simp [addTaskHistoryList, hgt]
      omega
    · simp [addTaskHistoryList, hgt]
      omega
  · intro hlt
    have hgt : ¬(h.length + 1 > 5) := by omega
    simp [addTaskHistoryList, hgt]
  · intro h5
    cases h with
    | nil => simp at h5
    | cons a t =>
      have hlen : t.length = 4 := by simpa using h5
      simp [addTaskHistoryList, hlen]

/-- Claim C7 witness: a full history of five records evicts the oldest when a
sixth is appended. -/
theorem C7_history_ring_witness :
    addTaskHistoryList
        [⟨"t1", 0, 0, 0, none, TStatus.completed⟩, ⟨"t2", 0, 0, 0, none, TStatus.completed⟩,
         ⟨"t3", 0, 0, 0, none, TStatus.completed⟩, ⟨"t4", 0, 0, 0, none, TStatus.completed⟩,
         ⟨"t5", 0, 0, 0, none, TStatus.completed⟩] ⟨"t6", 0, 0, 0, none, TStatus.completed⟩ =
      [⟨"t2", 0, 0, 0, none, TStatus.completed⟩, ⟨"t3", 0, 0, 0, none, TStatus.completed⟩,
       ⟨"t4", 0, 0, 0, none, TStatus.completed⟩, ⟨"t5", 0, 0, 0, none, TStatus.completed⟩,
       ⟨"t6", 0, 0, 0, none, TStatus.completed⟩] := by
  exact (C7_history_ring
    [⟨"t1", 0, 0, 0, none, TStatus.completed⟩, ⟨"t2", 0, 0, 0, none, TStatus.completed⟩,
     ⟨"t3", 0, 0, 0, none, TStatus.completed⟩, ⟨"t4", 0, 0, 0, none, TStatus.completed⟩,
     ⟨"t5", 0, 0, 0, none, TStatus.completed⟩] ⟨"t6", 0, 0, 0, none, TStatus.completed⟩).2.2 rfl

/-- Claim C10: `stopClaude(chatId)` returns true exactly when an executor
process is active for the chat, and with no active process it returns false
and leaves the whole module state (active table, sessions, histories,
counters, shared document, signal log) untouched. -/
theorem C10_stop_frame (st : ClaudeState) (chatId : String) :
    ((stopClaude st chatId).1 = (jsGet st.activeProcesses chatId).isSome) ∧
    (jsGet st.activeProcesses chatId = none → stopClaude st chatId = (false, st)) := by
  cases h : jsGet st.activeProcesses chatId <;> simp [stopClaude, h]

/-- Claim C10 witness: on the initial state (no active processes) `stopClaude`
returns false and changes nothing. -/
theorem C10_stop_frame_witness :
    stopClaude claudeInit "123@c.us" = (false, claudeInit) := by
  exact (C10_stop_frame claudeInit "123@c.us").2 rfl

/-- Claim C2 counterexample: an invocation that was started with a resume
token and fails for a reason unrelated to session resumption (here a git
error, whose text never mentions resuming) is nevertheless retried by the
code — the executor is invoked a second time with no token — although the
claim says any nonzero exit other than a resume failure is surfaced as an
error and never retried. -/
theorem C2_retry_counterexample :
    (runClaude (fun _ => ⟨some 1, "fatal: not a git repository", false, none⟩)
        [("123@c.us", "sess-1")] "123@c.us").tokensPassed = [some "sess-1", none] ∧
    mentionsResume "fatal: not a git repository" = false := by
  exact ⟨rfl, by decide⟩

/-- Claim C2 (amended): the retry triggers exactly when the first executor
invocation exits nonzero while a resume token was in use and the run is not
itself a retry — the failure reason is not inspected.  At most two executor
invocations happen per call; when the retry fires, the stale session is
cleared first and the second invocation is passed no token; a nonzero exit
with no token in use is surfaced as an error without any retry. -/
theorem C2_retry_amended (exec : Option String → ExecRes)
    (sessions : List (String × String)) (chatId : String) :
    ((runClaude exec sessions chatId).tokensPassed.length = 2 ↔
      ((exec (jsTruthy (jsGet sessions chatId))).stoppedByUser = false ∧
       (exec (jsTruthy (jsGet sessions chatId))).exitCode ≠ some 0 ∧
       (jsTruthy (jsGet sessions chatId)).isSome = true)) ∧
    (runClaude exec sessions chatId).tokensPassed.length ≤ 2 ∧
    ((runClaude exec sessions chatId).tokensPassed.length = 2 →
      (runClaude exec sessions chatId).tokensPassed =
        [jsTruthy (jsGet sessions chatId), none]) ∧
    ((exec (jsTruthy (jsGet sessions chatId))).stoppedByUser = false →
      jsTruthy (jsGet sessions chatId) = none →
      (exec (jsTruthy (jsGet sessions chatId))).exitCode ≠ some 0 →
      (runClaude exec sessions chatId).outcome =
        RunOutcome.failedExit (exec (jsTruthy (jsGet sessions chatId))).stderrText ∧
      (runClaude exec sessions chatId).tokensPassed = [none]) := by
  cases htok : jsTruthy (jsGet sessions chatId) with
  | none =>
    by_cases hstop : (exec none).stoppedByUser
    · simp [runClaude, runClaudeOnce, htok, hstop]
    · by_cases hexit : (exec none).exitCode = some 0
      · cases hs : jsTruthy (exec none).sessionIssued <;>
          simp [runClaude, runClaudeOnce, htok, hstop, hexit, hs]
      · simp [runClaude, runClaudeOnce, htok, hstop, hexit]
  | some tok =>
    by_cases hstop : (exec (some tok)).stoppedByUser
    · simp [runClaude, runClaudeOnce, htok, hstop]
    · by_cases hexit : (exec (some tok)).exitCode = some 0
      · cases hs : jsTruthy (exec (some tok)).sessionIssued <;>
          simp [runClaude, runClaudeOnce, htok, hstop, hexit, hs]
      · have hcleared : jsTruthy (jsGet (jsDelete sessions chatId) chatId) = none := by
          simp [jsGet_jsDelete_self, jsTruthy]
        by_cases hstop2 : (exec none).stoppedByUser
        · simp [runClaude, runClaudeOnce, htok, hstop, hexit, hcleared, hstop2]
        · by_cases hexit2 : (exec none).exitCode = some 0
          · cases hs2 : jsTruthy (exec none).sessionIssued <;>
              simp [runClaude, runClaudeOnce, htok, hstop, hexit, hcleared, hstop2, hexit2, hs2]
          · simp [runClaude, runClaudeOnce, htok, hstop, hexit, hcleared, hstop2, hexit2]

/-- Claim C2 witness: a stored session whose resume attempt exits nonzero is
retried exactly once, with the stale token cleared and no token passed to the
second invocation. -/
theorem C2_retry_amended_witness :
    (runClaude
        (fun tok => if tok.isSome then ⟨some 1, "resume failed", false, none⟩
                    else ⟨some 0, "", false, some "sess-2"⟩)
        [("123@c.us", "sess-old")] "123@c.us").tokensPassed =
      [jsTruthy (jsGet [("123@c.us", "sess-old")] "123@c.us"), none] := by
  exact (C2_retry_amended
    (fun tok => if tok.isSome then ⟨some 1, "resume failed", false, none⟩
                else ⟨some 0, "", false, some "sess-2"⟩)
    [("123@c.us", "sess-old")] "123@c.us").2.2.1 (by decide)

theorem loadSharedState_some (x : SharedState) : loadSharedState (some x) = x := rfl

/-- After a successful claim, any later claim for the same id within the
retention window returns false and leaves the shared file untouched. -/
theorem claimSeq_all_false (i msg : String) (now : Int)
    (tblRest : List (String × ClaimEntry)) (file1 : Option SharedState)
    (hfile : (loadSharedState file1).claimedMessages = some ((msg, ⟨i, now⟩) :: tblRest)) :
    ∀ ts : List Int, (∀ t ∈ ts, t - now ≤ CLAIM_RETENTION_MS) →
      claimSeq i msg file1 ts = ts.map (fun _ => false) := by
  intro ts
  induction ts with
  | nil => intro _; rfl
  | cons t ts ih =>
    intro hts
    have hle : t - now ≤ CLAIM_RETENTION_MS := hts t (List.mem_cons_self t ts)
    have h1 : purgeClaims t ((msg, (⟨i, now⟩ : ClaimEntry)) :: tblRest) =
        (msg, (⟨i, now⟩ : ClaimEntry)) :: purgeClaims t tblRest := by
      simp only [purgeClaims, List.filter_cons]
      rw [if_pos (by simpa using hle)]
    have hstep : claimGroupMessage i t msg file1 = (false, file1) := by
      simp [claimGroupMessage, hfile, h1, jsGet]
    simp only [claimSeq, hstep, List.map_cons]
    exact congrArg (List.cons false) (ih (fun u hu => hts u (List.mem_cons_of_mem t hu)))

/-- Claim C5: `claimGroupMessage` purges entries older than one hour, then
succeeds exactly when the id is absent from the purged table, recording
`{ instanceId, timestamp }` on success; consequently, of a run of claims for
the same id all lying within the retention window, exactly the first
returns true. -/
theorem C5_claim_dedup (i : String) (now : Int) (msg : String) (file : Option SharedState) :
    ((claimGroupMessage i now msg file).1 = true ↔
      jsGet (purgeClaims now ((loadSharedState file).claimedMessages.getD [])) msg = none) ∧
    ((claimGroupMessage i now msg file).1 = true →
      jsGet ((loadSharedState (claimGroupMessage i now msg file).2).claimedMessages.getD []) msg =
        some ⟨i, now⟩) ∧
    (∀ ts : List Int, (∀ t ∈ ts, t - now ≤ CLAIM_RETENTION_MS) →
      jsGet (purgeClaims now ((loadSharedState file).claimedMessages.getD [])) msg = none →
      claimSeq i msg file (now :: ts) = true :: ts.map (fun _ => false)) := by
  refine ⟨?_, ?_, ?_⟩
  · cases hv : jsGet (purgeClaims now ((loadSharedState file).claimedMessages.getD [])) msg <;>
      simp [claimGroupMessage, hv]
  · intro htrue
    cases hv : jsGet (purgeClaims now ((loadSharedState file).claimedMessages.getD [])) msg with
    | none =>
      simp [claimGroupMessage, hv, saveSharedState, loadSharedState_some, jsGet_jsSet_self]
    | some e => simp [claimGroupMessage, hv] at htrue
  · intro ts hts hnone
    have hfirst : claimGroupMessage i now msg file =
        (true, saveSharedState { loadSharedState file with claimedMessages := some (jsSet (purgeClaims now ((loadSharedState file).claimedMessages.getD [])) msg ⟨i, now⟩) }) := by
      simp [claimGroupMessage, hnone]
    simp only [claimSeq, hfirst, List.map_cons]
    refine congrArg (List.cons true) ?_
    exact claimSeq_all_false i msg now
      (jsDelete (purgeClaims now ((loadSharedState file).claimedMessages.getD [])) msg)
      _ (by simp [saveSharedState, loadSharedState_some, jsSet]) ts hts

/-- Claim C5 witness: three claims for one message id at times 0, 10 and
3600000 ms — exactly the first succeeds. -/
theorem C5_claim_dedup_witness :
    claimSeq "bot-a" "m1" none [0, 10, 3600000] = [true, false, false] := by
  exact (C5_claim_dedup "bot-a" 0 "m1" none).2.2 [10, 3600000] (by decide) rfl

/-- Claim C6: `acquireGroupLock` fails exactly when an entry younger than the
10-minute TTL exists; on success a fresh `{ timestamp, botName }` entry is
recorded; a second acquire during the unexpired lease fails without touching
the file, after the TTL it succeeds with no intervening release, and
`releaseGroupLock` deletes the entry unconditionally. -/
theorem C6_group_lock_lease (botA botB : String) (now : Int) (chatId : String)
    (file : Option SharedState) :
    ((acquireGroupLock botA now chatId file).1 = false ↔
      ∃ l, jsGet ((loadSharedState file).locks.getD []) chatId = some l ∧
        now - l.timestamp < GROUP_LOCK_TTL_MS) ∧
    ((acquireGroupLock botA now chatId file).1 = true →
      jsGet ((loadSharedState (acquireGroupLock botA now chatId file).2).locks.getD []) chatId =
        some ⟨now, botA⟩) ∧
    ((acquireGroupLock botA now chatId file).1 = true →
      ∀ t1, t1 - now < GROUP_LOCK_TTL_MS →
        acquireGroupLock botB t1 chatId (acquireGroupLock botA now chatId file).2 =
          (false, (acquireGroupLock botA now chatId file).2)) ∧
    ((acquireGroupLock botA now chatId file).1 = true →
      ∀ t2, GROUP_LOCK_TTL_MS ≤ t2 - now →
        (acquireGroupLock botB t2 chatId (acquireGroupLock botA now chatId file).2).1 = true) ∧
    jsGet ((loadSharedState (releaseGroupLock chatId file)).locks.getD []) chatId = none := by
  have hrel : jsGet ((loadSharedState (releaseGroupLock chatId file)).locks.getD []) chatId = none := by
    cases hlk : (loadSharedState file).locks with
    | none =>
      simp [releaseGroupLock, updateSharedState, saveSharedState, loadSharedState_some, hlk, jsGet]
    | some locks =>
      simp [releaseGroupLock, updateSharedState, saveSharedState, loadSharedState_some, hlk,
        jsGet_jsDelete_self]
  have hfresh : ∀ (hacq : acquireGroupLock botA now chatId file =
      (true, saveSharedState { loadSharedState file with locks := some (jsSet ((loadSharedState file).locks.getD []) chatId ⟨now, botA⟩) })),
      jsGet ((loadSharedState (acquireGroupLock botA now chatId file).2).locks.getD []) chatId =
        some ⟨now, botA⟩ := by
    intro hacq
    simp [hacq, saveSharedState, loadSharedState_some, jsGet_jsSet_self]
  cases hv : jsGet ((loadSharedState file).locks.getD []) chatId with
  | none =>
    have hacq : acquireGroupLock botA now chatId file =
        (true, saveSharedState { loadSharedState file with locks := some (jsSet ((loadSharedState file).locks.getD []) chatId ⟨now, botA⟩) }) := by
      simp [acquireGroupLock, hv]
    have hsec := hfresh hacq
    refine ⟨by simp [hacq, hv], fun _ => hsec, ?_, ?_, hrel⟩
    · intro _ t1 hlt1
      rw [hacq] at hsec ⊢
      simp [acquireGroupLock, hsec, hlt1]
    · intro _ t2 hge
      rw [hacq] at hsec ⊢
      simp [acquireGroupLock, hsec, not_lt.mpr hge]
  | some l =>
    by_cases hlt : now - l.timestamp < GROUP_LOCK_TTL_MS
    · have hacq : acquireGroupLock botA now chatId file = (false, file) := by
        simp [acquireGroupLock, hv, hlt]
      refine ⟨?_, ?_, ?_, ?_, hrel⟩
      · refine ⟨fun _ => ⟨l, rfl, hlt⟩, fun _ => ?_⟩
        rw [hacq]
      · intro htrue; rw [hacq] at htrue; simp at htrue
      · intro htrue; rw [hacq] at htrue; simp at htrue
      · intro htrue; rw [hacq] at htrue; simp at htrue
    · have hacq : acquireGroupLock botA now chatId file =
          (true, saveSharedState { loadSharedState file with locks := some (jsSet ((loadSharedState file).locks.getD []) chatId ⟨now, botA⟩) }) := by
        simp [acquireGroupLock, hv, hlt]
      have hsec := hfresh hacq
      refine ⟨by simp [hacq, hv, hlt], fun _ => hsec, ?_, ?_, hrel⟩
      · intro _ t1 hlt1
        rw [hacq] at hsec ⊢
        simp [acquireGroupLock, hsec, hlt1]
      · intro _ t2 hge
        rw [hacq] at hsec ⊢
        simp [acquireGroupLock, hsec, not_lt.mpr hge]

/-- Claim C6 witness: bot A locks at t=0 on an empty document; bot B fails at
t=599999 ms and succeeds at t=600000 ms; release deletes the entry. -/
theorem C6_group_lock_lease_witness :
    (acquireGroupLock "botB" 599999 "g@g.us" (acquireGroupLock "botA" 0 "g@g.us" none).2).1 =
      false ∧
    (acquireGroupLock "botB" 600000 "g@g.us" (acquireGroupLock "botA" 0 "g@g.us" none).2).1 =
      true := by
  have h := C6_group_lock_lease "botA" "botB" 0 "g@g.us" none
  constructor
  · have := h.2.2.1 (by decide) 599999 (by decide)
    rw [this]
  · exact h.2.2.2.1 (by decide) 600000 (by decide)

theorem acquireFileLockGo_none (fuel : Nat) (t : Int) (ws : List Int) :
    acquireFileLockGo (fuel + 1) none t ws = (true, some t) := rfl

theorem acquireFileLockGo_stale (fuel : Nat) (m t : Int) (ws : List Int)
    (h : t - m > LOCK_STALE_MS) :
    acquireFileLockGo (fuel + 1) (some m) t ws = acquireFileLockGo fuel none t ws := by
  simp [acquireFileLockGo, h]

/-- Claim C8: the mutex primitive — a free marker is acquired by exclusive
creation at once; a stale marker (older than 5 s) is force-removed and the
lock acquired on the retry; a marker that stays fresh exhausts the 20
attempts and acquisition fails; `withSharedStateLock` runs the operation and
returns its result whether or not the lock was obtained, and removes the
marker afterwards; `releaseFileLock` is idempotent; and the randomized spin
wait lies in the 50–150 ms range. -/
theorem C8_file_lock_mutex :
    (∀ (t : Int) (ws : List Int), acquireFileLock none t ws = (true, some t)) ∧
    (∀ (m t : Int) (ws : List Int), t - m > LOCK_STALE_MS →
      (acquireFileLock (some m) t ws).1 = true) ∧
    acquireFileLock (some 0) 0 (List.replicate 20 100) = (false, some 0) ∧
    (∀ (α : Type) (fn : α) (m : Option Int) (t : Int) (ws : List Int),
      withSharedStateLock m t ws fn = (fn, none)) ∧
    (∀ m : Option Int, releaseFileLock (releaseFileLock m) = releaseFileLock m) ∧
    (∀ r : ℚ, 0 ≤ r → r < 1 → 50 ≤ waitMsOf r ∧ waitMsOf r < 150) := by
  have h20 : LOCK_MAX_RETRIES = 19 + 1 := rfl
  refine ⟨?_, ?_, by decide, ?_, ?_, ?_⟩
  · intro t ws
    rw [acquireFileLock, h20, acquireFileLockGo_none]
  · intro m t ws h
    rw [acquireFileLock, h20, acquireFileLockGo_stale 19 m t ws h,
      (by rfl : (19 : Nat) = 18 + 1), acquireFileLockGo_none]
  · intro α fn m t ws
    rfl
  · intro m
    rfl
  · intro r h0 h1
    unfold waitMsOf
    constructor <;> nlinarith

/-- Claim C8 witness: a 6-second-old marker is acquired after force removal;
the shared-state operation runs even when the lock attempt starts from a held
fresh marker; release is idempotent; a concrete draw waits between 50 and
150 ms. -/
theorem C8_file_lock_mutex_witness :
    (acquireFileLock (some 0) 6000 []).1 = true ∧
    withSharedStateLock (some 0) 0 [] (42 : Nat) = (42, none) ∧
    releaseFileLock (releaseFileLock (some 3)) = releaseFileLock (some 3) ∧
    50 ≤ waitMsOf (1 / 2) ∧ waitMsOf (1 / 2) < 150 := by
  have h := C8_file_lock_mutex
  exact ⟨h.2.1 0 6000 [] (by decide), h.2.2.2.1 Nat 42 (some 0) 0 [],
    h.2.2.2.2.1 (some 3), (h.2.2.2.2.2 (1 / 2) (by norm_num) (by norm_num)).1,
    (h.2.2.2.2.2 (1 / 2) (by norm_num) (by norm_num)).2⟩

/-- Claim C9 counterexample: writing the empty string as a model override and
reading it back yields null rather than the written value, for a DM chat and
for a group chat alike, because the getters coalesce falsy values with
`|| null`.  The claim as stated (read-back returns the written value for
every written value) therefore fails. -/
theorem C9_empty_model_counterexample :
    getChatModel (setChatModel claudeInit "123@c.us" "") "123@c.us" ≠ some "" ∧
    getChatModel (setChatModel claudeInit "g@g.us" "") "g@g.us" ≠ some "" := by
  constructor <;> decide

/-- Claim C9 (amended): writing a ConversationState field and immediately
reading it back yields the written value for every nonempty written value —
`setProjectDir` then `getProjectDir` returns the directory (which exists at
write time, hence is nonempty), and `setChatModel` then `getChatModel`
returns any nonempty model — both for shared (group) and local conversation
identifiers. -/
theorem C9_roundtrip_amended (fsE : String → Bool) (st : ClaudeState)
    (chatId dir model : String) (hdir : fsE dir = true) (hne : dir ≠ "")
    (hm : model ≠ "") :
    (∃ st2, setProjectDir fsE st chatId dir = Except.ok st2 ∧
      getProjectDir st2 chatId = some dir) ∧
    getChatModel (setChatModel st chatId model) chatId = some model := by
  constructor
  · cases hg : isGroupChat chatId with
    | false =>
      refine ⟨{ st with projectDirs := jsSet st.projectDirs chatId dir }, ?_, ?_⟩
      · simp [setProjectDir, hdir, hg]
      · simp [getProjectDir, hg, jsGet_jsSet_self, jsTruthy, hne]
    | true =>
      refine ⟨{ st with sharedFile := updateSharedState st.sharedFile (fun s => { s with projectDirs := jsSet s.projectDirs chatId dir }) }, ?_, ?_⟩
      · simp [setProjectDir, hdir, hg]
      · simp [getProjectDir, hg, updateSharedState, saveSharedState, loadSharedState_some,
          jsGet_jsSet_self, jsTruthy, hne]
  · cases hg : isGroupChat chatId with
    | false =>
      simp [setChatModel, getChatModel, hg, jsGet_jsSet_self, jsTruthy, hm]
    | true =>
      simp [setChatModel, getChatModel, hg, updateSharedState, saveSharedState,
        loadSharedState_some, jsGet_jsSet_self, jsTruthy, hm]

/-- Claim C9 witness: concrete round trips — a DM chat's project directory and
a group chat's model override read back as written. -/
theorem C9_roundtrip_amended_witness :
    (∃ st2, setProjectDir (fun d => d == "/tmp/proj") claudeInit "123@c.us" "/tmp/proj" =
        Except.ok st2 ∧ getProjectDir st2 "123@c.us" = some "/tmp/proj") ∧
    getChatModel (setChatModel claudeInit "g@g.us" "claude-sonnet-4-6") "g@g.us" =
      some "claude-sonnet-4-6" := by
  exact ⟨(C9_roundtrip_amended (fun d => d == "/tmp/proj") claudeInit "123@c.us" "/tmp/proj"
      "claude-sonnet-4-6" (by decide) (by decide) (by decide)).1,
    (C9_roundtrip_amended (fun d => d == "/tmp/proj") claudeInit "g@g.us" "/tmp/proj"
      "claude-sonnet-4-6" (by decide) (by decide) (by decide)).2⟩

end AiAssistant
